import Mathlib

/-!
Verification of the refine-style incremental synthesis engine
(`refine_synthesis_tool.py`): token estimation, relevance prioritization,
greedy batch planning, and the initial-synthesis + iterative-refine
orchestration loop, with its "poison but continue" failure policy.

Modelling conventions:
* Python strings are Lean `String`s; `str.split()` (split on whitespace
  runs, dropping empty pieces) is `pyWords`; `str.lower()` is `pyLower`;
  `sep.join` is `pyJoin` (all structurally recursive so that concrete
  scenarios evaluate inside the kernel).
* The floating-point multiplier `1.33` in `estimate_tokens` is modelled
  exactly: `1.33 = 133/100`, so token estimates are kept as integer counts
  of centitokens (hundredths of a token): `estimate_tokens` returns
  `wordCount * 133`, and every comparison against a token budget compares
  with `100 * budget`, which is exactly equivalent to the source's
  comparison of `wordCount * 1.33` with `budget`.
* Python's `sorted(..., key=score, reverse=True)` is a stable sort placing
  higher scores first; it is modelled by `List.insertionSort` with the
  relation "score of the left argument is at least the score of the right",
  which is stable with the same tie-breaking (any two stable sorts for the
  same total preorder compute the same function).
* The Gemini gateway is an opaque external collaborator: a function from
  the prompt to either returned text or a failure message; `gemini_generate`
  reproduces the `try/except` wrapper that substitutes marked error strings.
* Wall-clock `processing_time` fields and `print` side effects are omitted;
  `batches[0]` on an empty batch list (a Python `IndexError`) is modelled by
  returning `none`.
* The orchestrator additionally returns the list of prompts passed to the
  gateway, so that "number and order of gateway calls" is statable.
-/

/-- Helper for `pyWords`: walk the characters, accumulating the current
word; whitespace closes the current word (if any). Structurally recursive
so that concrete inputs evaluate inside the kernel. -/
def pyWordsAux : List Char → List Char → List String
  | [], acc => if acc = [] then [] else [String.mk acc]
  | c :: rest, acc =>
    if c.isWhitespace then
      (if acc = [] then [] else [String.mk acc]) ++ pyWordsAux rest []
    else
      pyWordsAux rest (acc ++ [c])

/-- Python `text.split()`: split on whitespace runs, producing no empty
pieces (leading/trailing whitespace is dropped). -/
def pyWords (s : String) : List String :=
  pyWordsAux s.data []

/-- Python `text.lower()`, character by character. -/
def pyLower (s : String) : String :=
  String.mk (s.data.map Char.toLower)

/-- Python `sep.join(pieces)`. -/
def pyJoin (sep : String) : List String → String
  | [] => ""
  | [x] => x
  | x :: y :: rest => x ++ sep ++ pyJoin sep (y :: rest)

/-- Source: `estimate_tokens`, `return len(text.split()) * 1.33`. Measured
in centitokens so the value is an exact integer: `len * 1.33` tokens is
exactly `len * 133` centitokens. -/
def estimate_tokens (text : String) : Int :=
  ((pyWords text).length : Int) * 133

/-- Source: `RefineConfig` dataclass (defaults are in `defaultRefineConfig`). -/
structure RefineConfig where
  model_name : String
  max_tokens_per_request : Int
  response_reserve_tokens : Int
  prompt_overhead_tokens : Int
  average_chunk_tokens : Int
  temperature : ℚ

/-- Source: property `max_content_tokens`. -/
def RefineConfig.max_content_tokens (cfg : RefineConfig) : Int :=
  cfg.max_tokens_per_request - cfg.response_reserve_tokens - cfg.prompt_overhead_tokens

/-- Source: property `chunks_per_batch`, Python floor division `//`. -/
def RefineConfig.chunks_per_batch (cfg : RefineConfig) : Int :=
  Int.fdiv cfg.max_content_tokens cfg.average_chunk_tokens

/-- Source: the `RefineConfig` dataclass field defaults. -/
def defaultRefineConfig : RefineConfig :=
  { model_name := "gemini-1.5-pro"
    max_tokens_per_request := 1000000
    response_reserve_tokens := 4000
    prompt_overhead_tokens := 1000
    average_chunk_tokens := 530
    temperature := 1 / 10 }

/-- Source: `prioritize_chunks` score,
`len(set(user_query.lower().split()) & set(chunk.lower().split()))`:
the number of distinct lowercase query words occurring in the chunk. -/
def relevance_score (user_query chunk : String) : Nat :=
  ((pyWords (pyLower user_query)).toFinset ∩ (pyWords (pyLower chunk)).toFinset).card

/-- Source: `prioritize_chunks`: stable sort of the chunks, highest
relevance score first (Python `sorted(..., key=score, reverse=True)` is
stable; `List.insertionSort` with this relation is the same stable sort). -/
def prioritize_chunks (chunks : List String) (user_query : String) : List String :=
  chunks.insertionSort (fun a b => relevance_score user_query b ≤ relevance_score user_query a)

/-- Estimated token cost of a whole batch, in centitokens (used by the
batching invariants and by the strategy decision). -/
def batch_tokens (batch : List String) : Int :=
  (batch.map estimate_tokens).sum

/-- Source: loop body of `create_batches`, carrying `current_batch` and
`current_tokens`; the trailing `if current_batch: batches.append(...)`
is the `[]` case. -/
def create_batchesAux (cfg : RefineConfig) :
    List String → List String → Int → List (List String)
  | [], current_batch, _ =>
    if current_batch = [] then [] else [current_batch]
  | chunk :: rest, current_batch, current_tokens =>
    let chunk_tokens := estimate_tokens chunk
    if current_tokens + chunk_tokens > 100 * cfg.max_content_tokens ∧ current_batch ≠ [] then
      current_batch :: create_batchesAux cfg rest [chunk] chunk_tokens
    else
      create_batchesAux cfg rest (current_batch ++ [chunk]) (current_tokens + chunk_tokens)

/-- Source: `create_batches`. -/
def create_batches (cfg : RefineConfig) (chunks : List String) : List (List String) :=
  create_batchesAux cfg chunks [] 0

/-- Source: `create_initial_prompt`; the f-string is reproduced verbatim,
with the `join` over the chunk separator as `pyJoin`. -/
def create_initial_prompt (user_query : String) (chunks : List String)
    (total_batches : Nat) : String :=
  let chunks_text := pyJoin "\n\n---CHUNK SEPARATOR---\n\n" chunks
  "You are a document analysis expert. Analyze the retrieved content and provide a comprehensive response to the user's query.\n\nUSER QUERY: "
    ++ user_query
    ++ "\n\nRETRIEVED CONTENT (Batch 1 of "
    ++ toString total_batches
    ++ "):\n"
    ++ chunks_text
    ++ "\n\nINSTRUCTIONS:\n1. Provide a thorough, well-structured response addressing the user's query\n2. Use specific information from the retrieved content with citations where appropriate\n3. Structure your response with clear headings and bullet points if helpful\n4. Include relevant examples, definitions, or explanations\n5. This is batch 1 of "
    ++ toString total_batches
    ++ " - additional content will follow to refine this response\n6. Focus on accuracy and completeness based on the available content\n\nGenerate your comprehensive initial response:"

/-- Source: `create_refine_prompt`; the f-string is reproduced verbatim. -/
def create_refine_prompt (user_query current_response : String)
    (new_chunks : List String) (batch_num total_batches : Nat) : String :=
  let new_content := pyJoin "\n\n---CHUNK SEPARATOR---\n\n" new_chunks
  "You are refining a response with additional retrieved content. Improve and expand the current response using the new information.\n\nUSER QUERY: "
    ++ user_query
    ++ "\n\nCURRENT RESPONSE:\n"
    ++ current_response
    ++ "\n\nNEW RETRIEVED CONTENT (Batch "
    ++ toString batch_num
    ++ " of "
    ++ toString total_batches
    ++ "):\n"
    ++ new_content
    ++ "\n\nINSTRUCTIONS:\n1. Refine the current response by incorporating valuable new information\n2. Correct any inconsistencies if new content contradicts previous information\n3. Add important details, examples, or clarifications from the new content\n4. Maintain the overall structure and coherent flow\n5. Remove redundant information but ensure completeness\n6. Integrate new citations or references appropriately\n7. Keep the response focused on the user's query\n\nProvide the refined and improved response:"

/-- External LLM gateway boundary: a call either returns text or fails
(the `except Exception` arm of `gemini_generate`, carrying `str(e)`). -/
inductive GatewayResponse where
  | text (s : String)
  | failure (err : String)
  deriving DecidableEq

/-- Source: `gemini_generate`: returns the gateway text when truthy
(non-empty), otherwise substitutes the marked error strings. -/
def gemini_generate (gateway : String → GatewayResponse) (prompt : String) : String :=
  match gateway prompt with
  | .text s => if s = "" then "Error: No response generated from Gemini API" else s
  | .failure e => "Error: Gemini API call failed - " ++ e

/-- Source: one entry of `processing_log` (wall-clock `processing_time`
omitted). -/
structure StepRecord where
  batch_number : Nat
  chunk_count : Nat
  action : String
  deriving DecidableEq

/-- Source: the dict returned by `refine_synthesis` (`metadata` flattened;
wall-clock timing and the informational `config` echo omitted). -/
structure SynthesisResult where
  response : String
  user_query : String
  total_chunks : Nat
  total_batches : Nat
  total_tokens_estimated : Int
  processing_strategy : String
  prioritized : Bool
  processing_log : List StepRecord
  deriving DecidableEq

/-- Source: the `for i, batch in enumerate(batches[1:], 2)` refine loop of
`refine_synthesis`, instrumented to also record the prompts sent to the
gateway. Arguments: remaining batches, batch index `i`, current response,
log so far, prompts so far. -/
def refineLoop (gateway : String → GatewayResponse) (user_query : String)
    (total_batches : Nat) :
    List (List String) → Nat → String → List StepRecord → List String →
      String × List StepRecord × List String
  | [], _, current_response, log, prompts => (current_response, log, prompts)
  | batch :: rest, i, current_response, log, prompts =>
    let p := create_refine_prompt user_query current_response batch i total_batches
    let refined_response := gemini_generate gateway p
    refineLoop gateway user_query total_batches rest (i + 1) refined_response
      (log ++ [⟨i, batch.length, "refine_synthesis"⟩]) (prompts ++ [p])

/-- Source: `refine_synthesis`, parametrized by the gateway; returns the
result together with the list of prompts sent to the gateway, or `none`
where the Python code would raise `IndexError` on `batches[0]`. -/
def refine_synthesis_full (gateway : String → GatewayResponse) (cfg : RefineConfig)
    (user_query : String) (chunks : List String) (prioritized : Bool) :
    Option (SynthesisResult × List String) :=
  let chunks' := if prioritized then prioritize_chunks chunks user_query else chunks
  let total_tokens := batch_tokens chunks'
  let batches :=
    if total_tokens ≤ 100 * cfg.max_content_tokens then [chunks']
    else create_batches cfg chunks'
  match batches with
  | [] => none
  | b0 :: rest =>
    let n := rest.length + 1
    let initial_prompt := create_initial_prompt user_query b0 n
    let r0 := gemini_generate gateway initial_prompt
    let stepResults := refineLoop gateway user_query n rest 2 r0
      [⟨1, b0.length, "initial_synthesis"⟩] [initial_prompt]
    some ({ response := stepResults.1
            user_query := user_query
            total_chunks := chunks'.length
            total_batches := n
            total_tokens_estimated := total_tokens
            processing_strategy := if n = 1 then "single_batch" else "multi_batch"
            prioritized := prioritized
            processing_log := stepResults.2.1 }, stepResults.2.2)

/-- Source: `refine_synthesis` proper (result only, prompt trace dropped). -/
def refine_synthesis (gateway : String → GatewayResponse) (cfg : RefineConfig)
    (user_query : String) (chunks : List String) (prioritized : Bool) :
    Option SynthesisResult :=
  (refine_synthesis_full gateway cfg user_query chunks prioritized).map Prod.fst

/-- Test gateway that succeeds on every prompt with the fixed text
`"ANSWER"`. -/
def gwConst : String → GatewayResponse := fun _ => .text "ANSWER"

/-- Test gateway that succeeds on every prompt with the fixed text `"OK"`. -/
def gwOK : String → GatewayResponse := fun _ => .text "OK"

/-- Test gateway that fails (raises, in the source) exactly on prompts
containing the character `'9'`: in the failure-isolation scenario below the
only such prompt is the refine prompt for batch 2, whose sole fragment is
`"f9"`. -/
def gwScen : String → GatewayResponse :=
  fun p => if p.data.contains '9' then .failure "boom" else .text "OK"

/-- Test configuration whose derived `max_content_tokens` is `2`: each
one-word fragment costs `1.33` tokens, so any single fragment fits but no
two fragments fit together, forcing one batch per fragment. -/
def cfgScen : RefineConfig :=
  { model_name := "gemini-1.5-pro"
    max_tokens_per_request := 5002
    response_reserve_tokens := 4000
    prompt_overhead_tokens := 1000
    average_chunk_tokens := 530
    temperature := 1 / 10 }


theorem create_batchesAux_flatten (cfg : RefineConfig) :
    ∀ (chunks current_batch : List String) (current_tokens : Int),
      (create_batchesAux cfg chunks current_batch current_tokens).flatten =
        current_batch ++ chunks
  | [], current_batch, t => by
    by_cases h : current_batch = [] <;> simp [create_batchesAux, h]
  | chunk :: rest, current_batch, t => by
    rw [create_batchesAux]
    by_cases h : t + estimate_tokens chunk > 100 * cfg.max_content_tokens ∧ current_batch ≠ []
    · simp only [if_pos h, List.flatten_cons, create_batchesAux_flatten cfg rest]
      simp
    · simp only [if_neg h, create_batchesAux_flatten cfg rest]
      simp

theorem create_batchesAux_budget (cfg : RefineConfig) :
    ∀ (chunks current_batch : List String) (current_tokens : Int),
      current_tokens = batch_tokens current_batch →
      (current_batch.length ≤ 1 ∨ current_tokens ≤ 100 * cfg.max_content_tokens) →
      ∀ b ∈ create_batchesAux cfg chunks current_batch current_tokens,
        batch_tokens b ≤ 100 * cfg.max_content_tokens ∨
          (b.length = 1 ∧ 100 * cfg.max_content_tokens < batch_tokens b)
  | [], current_batch, t, ht, hinv, b, hb => by
    by_cases h : current_batch = []
    · simp [create_batchesAux, h] at hb
    · simp only [create_batchesAux, if_neg h, List.mem_singleton] at hb
      subst hb
      rcases hinv with hlen | hle
      · by_cases hc : batch_tokens b ≤ 100 * cfg.max_content_tokens
        · exact Or.inl hc
        · exact Or.inr ⟨Nat.le_antisymm hlen (List.length_pos.mpr h), lt_of_not_le hc⟩
      · exact Or.inl (ht ▸ hle)
  | chunk :: rest, current_batch, t, ht, hinv, b, hb => by
    rw [create_batchesAux] at hb
    by_cases h : t + estimate_tokens chunk > 100 * cfg.max_content_tokens ∧ current_batch ≠ []
    · rw [if_pos h] at hb
      rcases List.mem_cons.mp hb with hb | hb
      · subst hb
        rcases hinv with hlen | hle
        · by_cases hc : batch_tokens b ≤ 100 * cfg.max_content_tokens
          · exact Or.inl hc
          · exact Or.inr ⟨Nat.le_antisymm hlen (List.length_pos.mpr h.2), lt_of_not_le hc⟩
        · exact Or.inl (ht ▸ hle)
      · exact create_batchesAux_budget cfg rest [chunk] (estimate_tokens chunk)
          (by simp [batch_tokens]) (Or.inl (by simp)) b hb
    · rw [if_neg h] at hb
      refine create_batchesAux_budget cfg rest (current_batch ++ [chunk])
        (t + estimate_tokens chunk) (by simp [batch_tokens, ht]) ?_ b hb
      rcases not_and_or.mp h with hle | hne
      · exact Or.inr (le_of_not_lt hle)
      · have : current_batch = [] := not_not.mp hne
        subst this
        exact Or.inl (by simp)

theorem create_batchesAux_congr (cfg₁ cfg₂ : RefineConfig)
    (h : cfg₁.max_content_tokens = cfg₂.max_content_tokens) :
    ∀ (chunks current_batch : List String) (current_tokens : Int),
      create_batchesAux cfg₁ chunks current_batch current_tokens =
        create_batchesAux cfg₂ chunks current_batch current_tokens
  | [], current_batch, t => rfl
  | chunk :: rest, current_batch, t => by
    rw [create_batchesAux, create_batchesAux, h,
      create_batchesAux_congr cfg₁ cfg₂ h rest,
      create_batchesAux_congr cfg₁ cfg₂ h rest]

theorem prioritize_chunks_perm (chunks : List String) (user_query : String) :
    List.Perm (prioritize_chunks chunks user_query) chunks :=
  List.perm_insertionSort _ _

theorem batch_tokens_perm {l₁ l₂ : List String} (h : List.Perm l₁ l₂) :
    batch_tokens l₁ = batch_tokens l₂ :=
  (h.map estimate_tokens).sum_eq

/-- Claim C1: for every fragment list and every positive `maxContentTokens`
budget, concatenating the batches returned by `create_batches` (in order,
each batch in its internal order) yields exactly the input fragment list —
no fragment is duplicated, dropped, or reordered. -/
theorem c1_batch_partition (cfg : RefineConfig) (chunks : List String)
    (_hpos : 0 < cfg.max_content_tokens) :
    (create_batches cfg chunks).flatten = chunks :=
  create_batchesAux_flatten cfg chunks [] 0

theorem c1_batch_partition_witness :
    0 < defaultRefineConfig.max_content_tokens ∧
    (create_batches defaultRefineConfig ["alpha beta", "gamma"]).flatten =
      ["alpha beta", "gamma"] :=
  ⟨by decide, c1_batch_partition defaultRefineConfig ["alpha beta", "gamma"] (by decide)⟩

/-- Claim C2: every batch produced by `create_batches` either has summed
estimated token cost at most `maxContentTokens`, or consists of exactly one
fragment whose own estimated cost exceeds `maxContentTokens` (all token
counts in centitokens, the budget scaled by `100`). An oversized fragment
is therefore never split and always sits alone in its own batch. -/
theorem c2_batch_budget (cfg : RefineConfig) (chunks : List String) :
    ∀ batch ∈ create_batches cfg chunks,
      batch_tokens batch ≤ 100 * cfg.max_content_tokens ∨
        (batch.length = 1 ∧ 100 * cfg.max_content_tokens < batch_tokens batch) :=
  fun batch hb =>
    create_batchesAux_budget cfg chunks [] 0 (by simp [batch_tokens])
      (Or.inl (by simp)) batch hb

theorem c2_batch_budget_witness :
    ["f8"] ∈ create_batches cfgScen ["f8", "f9", "fz"] ∧
    (batch_tokens ["f8"] ≤ 100 * cfgScen.max_content_tokens ∨
      (["f8"].length = 1 ∧ 100 * cfgScen.max_content_tokens < batch_tokens ["f8"])) :=
  ⟨by decide, c2_batch_budget cfgScen ["f8", "f9", "fz"] ["f8"] (by decide)⟩

/-- Claim C8: for all texts `a` and `b` where `a` is a prefix of `b` and
`b` has strictly more whitespace-delimited words than `a`,
`estimate_tokens a ≤ estimate_tokens b`. -/
theorem c8_token_estimate_monotonicity (a b : String)
    (_hpre : a.data <+: b.data)
    (hwords : (pyWords a).length < (pyWords b).length) :
    estimate_tokens a ≤ estimate_tokens b := by
  unfold estimate_tokens
  have h : (pyWords a).length ≤ (pyWords b).length := Nat.le_of_lt hwords
  omega

theorem c8_token_estimate_monotonicity_witness :
    ("ab".data <+: "ab cd".data ∧ (pyWords "ab").length < (pyWords "ab cd").length) ∧
    estimate_tokens "ab" ≤ estimate_tokens "ab cd" :=
  ⟨⟨by decide, by decide⟩,
    c8_token_estimate_monotonicity "ab" "ab cd" (by decide) (by decide)⟩

/-- Claim C9: `create_batches` returns identical batch sequences for any
two configurations differing only in `average_chunk_tokens`; that setting
never influences the actual packing. -/
theorem c9_average_chunk_tokens_noninterference (cfg : RefineConfig) (a b : Int)
    (chunks : List String) :
    create_batches { cfg with average_chunk_tokens := a } chunks =
      create_batches { cfg with average_chunk_tokens := b } chunks :=
  create_batchesAux_congr { cfg with average_chunk_tokens := a }
    { cfg with average_chunk_tokens := b } rfl chunks [] 0

/-- Claim C7: `prioritize_chunks` returns the fragments sorted in
descending order of the number of distinct lowercase query words occurring
in the fragment; equal-score fragments keep their original relative order
(for every score value, the subsequence with that score is unchanged); when
every fragment has zero overlap with the query the output equals the input;
and for query `"capital requirements"` with the three spec fragments the
output order is second, first, third. -/
theorem c7_prioritization_order (chunks : List String) (q : String) :
    List.Perm (prioritize_chunks chunks q) chunks ∧
    List.Sorted (fun a b => relevance_score q b ≤ relevance_score q a)
      (prioritize_chunks chunks q) ∧
    (∀ s : Nat,
      (prioritize_chunks chunks q).filter (fun c => relevance_score q c == s) =
        chunks.filter (fun c => relevance_score q c == s)) ∧
    ((∀ c ∈ chunks, relevance_score q c = 0) → prioritize_chunks chunks q = chunks) ∧
    prioritize_chunks ["the capital base", "requirements and capital adequacy",
        "unrelated text"] "capital requirements" =
      ["requirements and capital adequacy", "the capital base", "unrelated text"] := by
  have hperm := prioritize_chunks_perm chunks q
  refine ⟨hperm, ?_, ?_, ?_, by decide⟩
  · haveI : IsTotal String (fun a b => relevance_score q b ≤ relevance_score q a) :=
      ⟨fun a b => Nat.le_total _ _⟩
    haveI : IsTrans String (fun a b => relevance_score q b ≤ relevance_score q a) :=
      ⟨fun a b c hab hbc => le_trans hbc hab⟩
    exact List.sorted_insertionSort _ chunks
  · intro s
    have hsub : List.Sublist (chunks.filter (fun c => relevance_score q c == s)) chunks :=
      List.filter_sublist _
    have hpw : (chunks.filter (fun c => relevance_score q c == s)).Pairwise
        (fun a b => relevance_score q b ≤ relevance_score q a) := by
      apply List.pairwise_of_forall_mem_list
      intro a ha b hb
      rw [List.mem_filter] at ha hb
      have ha' : relevance_score q a = s := by simpa using ha.2
      have hb' : relevance_score q b = s := by simpa using hb.2
      omega
    have h1 : List.Sublist (chunks.filter (fun c => relevance_score q c == s))
        (prioritize_chunks chunks q) :=
      List.sublist_insertionSort hpw hsub
    have h2 : List.Sublist ((chunks.filter (fun c => relevance_score q c == s)).filter
        (fun c => relevance_score q c == s))
        ((prioritize_chunks chunks q).filter (fun c => relevance_score q c == s)) :=
      h1.filter _
    rw [List.filter_eq_self.mpr (fun a ha => (List.mem_filter.mp ha).2)] at h2
    have hlen : ((prioritize_chunks chunks q).filter
        (fun c => relevance_score q c == s)).length =
        (chunks.filter (fun c => relevance_score q c == s)).length :=
      (hperm.filter _).length_eq
    exact (h2.eq_of_length hlen.symm).symm
  · intro h0
    apply List.Sorted.insertionSort_eq
    apply List.pairwise_of_forall_mem_list
    intro a ha b hb
    simp [h0 a ha, h0 b hb]

theorem refine_synthesis_full_single_batch (gateway : String → GatewayResponse)
    (cfg : RefineConfig) (q : String) (chunks : List String) (pr : Bool)
    (h : batch_tokens (if pr then prioritize_chunks chunks q else chunks) ≤
        100 * cfg.max_content_tokens) :
    refine_synthesis_full gateway cfg q chunks pr =
      some ({ response := gemini_generate gateway
                (create_initial_prompt q (if pr then prioritize_chunks chunks q else chunks) 1)
              user_query := q
              total_chunks := (if pr then prioritize_chunks chunks q else chunks).length
              total_batches := 1
              total_tokens_estimated :=
                batch_tokens (if pr then prioritize_chunks chunks q else chunks)
              processing_strategy := "single_batch"
              prioritized := pr
              processing_log := [⟨1, (if pr then prioritize_chunks chunks q else chunks).length,
                "initial_synthesis"⟩] },
            [create_initial_prompt q (if pr then prioritize_chunks chunks q else chunks) 1]) := by
  simp only [refine_synthesis_full, if_pos h]
  rfl

/-- Claim C6: for every fragment list whose total estimated tokens are
below `maxContentTokens` (in centitokens: `batch_tokens chunks <
100 * max_content_tokens`), `refine_synthesis` performs exactly one
gateway call (the prompt trace is one initial prompt), reports strategy
`"single_batch"`, and the processing log is exactly one
`"initial_synthesis"` entry. -/
theorem c6_single_batch_shortcut (gateway : String → GatewayResponse)
    (cfg : RefineConfig) (q : String) (chunks : List String) (pr : Bool)
    (h : batch_tokens chunks < 100 * cfg.max_content_tokens) :
    refine_synthesis_full gateway cfg q chunks pr =
      some ({ response := gemini_generate gateway
                (create_initial_prompt q (if pr then prioritize_chunks chunks q else chunks) 1)
              user_query := q
              total_chunks := chunks.length
              total_batches := 1
              total_tokens_estimated := batch_tokens chunks
              processing_strategy := "single_batch"
              prioritized := pr
              processing_log := [⟨1, chunks.length, "initial_synthesis"⟩] },
            [create_initial_prompt q (if pr then prioritize_chunks chunks q else chunks) 1]) := by
  have htok : batch_tokens (if pr then prioritize_chunks chunks q else chunks) =
      batch_tokens chunks := by
    cases pr
    · rfl
    · exact batch_tokens_perm (prioritize_chunks_perm chunks q)
  have hlen : (if pr then prioritize_chunks chunks q else chunks).length = chunks.length := by
    cases pr
    · rfl
    · exact (prioritize_chunks_perm chunks q).length_eq
  rw [refine_synthesis_full_single_batch gateway cfg q chunks pr
    (le_of_lt (htok ▸ h)), htok, hlen]

theorem c6_single_batch_shortcut_witness :
    batch_tokens ["hello world"] < 100 * defaultRefineConfig.max_content_tokens ∧
    refine_synthesis_full gwConst defaultRefineConfig "greet" ["hello world"] true =
      some ({ response := gemini_generate gwConst
                (create_initial_prompt "greet"
                  (if true then prioritize_chunks ["hello world"] "greet" else ["hello world"]) 1)
              user_query := "greet"
              total_chunks := 1
              total_batches := 1
              total_tokens_estimated := batch_tokens ["hello world"]
              processing_strategy := "single_batch"
              prioritized := true
              processing_log := [⟨1, 1, "initial_synthesis"⟩] },
            [create_initial_prompt "greet"
              (if true then prioritize_chunks ["hello world"] "greet" else ["hello world"]) 1]) :=
  ⟨by decide,
    c6_single_batch_shortcut gwConst defaultRefineConfig "greet" ["hello world"] true (by decide)⟩

/-- Claim C10: calling `refine_synthesis` with an empty fragment list does
not fail (given a nonnegative content budget, as with the default
configuration): the whole empty list is one batch of zero fragments,
exactly one gateway call is made on an initial prompt whose fragment
section is empty (`pyJoin` of no chunks is `""`), and the result reports
strategy `"single_batch"`, `total_batches = 1`, `total_chunks = 0`, and a
one-entry `"initial_synthesis"` log with `chunk_count 0`. -/
theorem c10_empty_input (gateway : String → GatewayResponse) (cfg : RefineConfig)
    (q : String) (pr : Bool) (h : 0 ≤ cfg.max_content_tokens) :
    refine_synthesis_full gateway cfg q [] pr =
      some ({ response := gemini_generate gateway (create_initial_prompt q [] 1)
              user_query := q
              total_chunks := 0
              total_batches := 1
              total_tokens_estimated := 0
              processing_strategy := "single_batch"
              prioritized := pr
              processing_log := [⟨1, 0, "initial_synthesis"⟩] },
            [create_initial_prompt q [] 1]) ∧
    pyJoin "\n\n---CHUNK SEPARATOR---\n\n" ([] : List String) = "" := by
  have hnil : (if pr then prioritize_chunks [] q else []) = ([] : List String) := by
    cases pr <;> rfl
  constructor
  · have h0 : batch_tokens (if pr then prioritize_chunks [] q else []) ≤
        100 * cfg.max_content_tokens := by
      rw [hnil]
      have : batch_tokens [] = 0 := rfl
      omega
    rw [refine_synthesis_full_single_batch gateway cfg q [] pr h0, hnil]
    rfl
  · rfl

theorem c10_empty_input_witness :
    0 ≤ defaultRefineConfig.max_content_tokens ∧
    (refine_synthesis_full gwConst defaultRefineConfig "anything" [] false =
      some ({ response := gemini_generate gwConst (create_initial_prompt "anything" [] 1)
              user_query := "anything"
              total_chunks := 0
              total_batches := 1
              total_tokens_estimated := 0
              processing_strategy := "single_batch"
              prioritized := false
              processing_log := [⟨1, 0, "initial_synthesis"⟩] },
            [create_initial_prompt "anything" [] 1]) ∧
      pyJoin "\n\n---CHUNK SEPARATOR---\n\n" ([] : List String) = "") :=
  ⟨by decide, c10_empty_input gwConst defaultRefineConfig "anything" false (by decide)⟩

/-- Claim C4 counterexample: with `max_content_tokens = 2` and the single
four-word fragment `"w w w w"` (estimated `5.32` tokens, over budget), the
code takes the multi-batch branch, the planner returns one (oversized)
batch, and the reported strategy is `"single_batch"` — not `"multi_batch"`
as the claim requires for the over-budget case. -/
theorem c4_strategy_decision_counterexample :
    100 * cfgScen.max_content_tokens < batch_tokens ["w w w w"] ∧
    refine_synthesis gwConst cfgScen "q" ["w w w w"] false =
      some { response := "ANSWER"
             user_query := "q"
             total_chunks := 1
             total_batches := 1
             total_tokens_estimated := 532
             processing_strategy := "single_batch"
             prioritized := false
             processing_log := [⟨1, 1, "initial_synthesis"⟩] } ∧
    ("single_batch" : String) ≠ "multi_batch" :=
  ⟨by decide, rfl, by decide⟩

/-- Claim C4 (amended): if the total estimated tokens fit the budget, the
whole fragment set is used as one batch and strategy `"single_batch"` is
reported; otherwise the batch planner is called, but the reported strategy
is `"single_batch"` exactly when the planner returned one batch (as happens
for a single oversized fragment) and `"multi_batch"` otherwise, because the
source derives the strategy from `len(batches)`, not from the branch
taken. -/
theorem c4_strategy_decision_amended (gateway : String → GatewayResponse)
    (cfg : RefineConfig) (q : String) (chunks : List String) (pr : Bool) :
    (batch_tokens chunks ≤ 100 * cfg.max_content_tokens →
      refine_synthesis_full gateway cfg q chunks pr =
        some ({ response := gemini_generate gateway
                  (create_initial_prompt q (if pr then prioritize_chunks chunks q else chunks) 1)
                user_query := q
                total_chunks := chunks.length
                total_batches := 1
                total_tokens_estimated := batch_tokens chunks
                processing_strategy := "single_batch"
                prioritized := pr
                processing_log := [⟨1, chunks.length, "initial_synthesis"⟩] },
              [create_initial_prompt q (if pr then prioritize_chunks chunks q else chunks) 1])) ∧
    (100 * cfg.max_content_tokens < batch_tokens chunks →
      ∀ r ps, refine_synthesis_full gateway cfg q chunks pr = some (r, ps) →
        r.total_batches =
          (create_batches cfg (if pr then prioritize_chunks chunks q else chunks)).length ∧
        r.processing_strategy =
          (if (create_batches cfg (if pr then prioritize_chunks chunks q else chunks)).length = 1
            then "single_batch" else "multi_batch")) := by
  have htok : batch_tokens (if pr then prioritize_chunks chunks q else chunks) =
      batch_tokens chunks := by
    cases pr
    · rfl
    · exact batch_tokens_perm (prioritize_chunks_perm chunks q)
  have hlen : (if pr then prioritize_chunks chunks q else chunks).length = chunks.length := by
    cases pr
    · rfl
    · exact (prioritize_chunks_perm chunks q).length_eq
  constructor
  · intro hle
    rw [refine_synthesis_full_single_batch gateway cfg q chunks pr (htok ▸ hle), htok, hlen]
  · intro hgt r ps hfull
    simp only [refine_synthesis_full] at hfull
    rw [if_neg (by rw [htok]; exact not_le.mpr hgt)] at hfull
    rcases hcb : create_batches cfg (if pr then prioritize_chunks chunks q else chunks) with
      _ | ⟨b0, rest⟩
    · rw [hcb] at hfull
      exact absurd hfull (by simp)
    · rw [hcb] at hfull
      simp only [Option.some.injEq, Prod.mk.injEq] at hfull
      obtain ⟨hr, _⟩ := hfull
      subst hr
      constructor
      · simp
      · simp

theorem c4_strategy_decision_amended_witness :
    100 * cfgScen.max_content_tokens < batch_tokens ["w w w w"] ∧
    (SynthesisResult.total_batches
        { response := "ANSWER"
          user_query := "q"
          total_chunks := 1
          total_batches := 1
          total_tokens_estimated := 532
          processing_strategy := "single_batch"
          prioritized := false
          processing_log := [⟨1, 1, "initial_synthesis"⟩] } =
        (create_batches cfgScen (if false then prioritize_chunks ["w w w w"] "q"
          else ["w w w w"])).length ∧
      SynthesisResult.processing_strategy
        { response := "ANSWER"
          user_query := "q"
          total_chunks := 1
          total_batches := 1
          total_tokens_estimated := 532
          processing_strategy := "single_batch"
          prioritized := false
          processing_log := [⟨1, 1, "initial_synthesis"⟩] } =
        (if (create_batches cfgScen (if false then prioritize_chunks ["w w w w"] "q"
          else ["w w w w"])).length = 1 then "single_batch" else "multi_batch")) :=
  ⟨by decide,
    (c4_strategy_decision_amended gwConst cfgScen "q" ["w w w w"] false).2 (by decide)
      { response := "ANSWER"
        user_query := "q"
        total_chunks := 1
        total_batches := 1
        total_tokens_estimated := 532
        processing_strategy := "single_batch"
        prioritized := false
        processing_log := [⟨1, 1, "initial_synthesis"⟩] }
      [create_initial_prompt "q" ["w w w w"] 1] rfl⟩

theorem sub_append_left {α : Type} (x : List α) {y l : List α}
    (h : y <:+: l) : y <:+: x ++ l := by
  rcases h with ⟨s, t, rfl⟩
  exact ⟨x ++ s, t, by simp⟩

theorem not_substring_of_missing_char {c : Char} {needle hay : List Char}
    (hc : c ∈ needle) (hmem : c ∉ hay) : ¬ needle <:+: hay :=
  fun h => hmem (h.mem hc)

set_option maxRecDepth 100000 in
theorem current_response_in_refine_prompt (q cur : String) (b : List String) (i n : Nat) :
    cur.data <:+: (create_refine_prompt q cur b i n).data := by
  simp only [create_refine_prompt, String.data_append, List.append_assoc]
  apply sub_append_left
  apply sub_append_left
  apply sub_append_left
  exact ⟨[], _, rfl⟩

set_option maxRecDepth 1000000 in
/-- Claim C5: with three one-word fragments and a 2-token budget the
planner produces exactly 3 batches; `refine_synthesis` performs exactly 3
gateway calls in batch order (the prompt trace is the initial prompt for
batch 1 followed by the refine prompts for batches 2 and 3); each refine
prompt contains the previous call's returned text verbatim as the current
response; and no refine prompt contains the raw fragments of earlier
batches (fragment markers `'8'`/`'9'` never occur in later prompts). -/
theorem c5_multi_batch_progression :
    (create_batches cfgScen ["f8", "f9", "fz"]).length = 3 ∧
    refine_synthesis_full gwConst cfgScen "q" ["f8", "f9", "fz"] false =
      some ({ response := "ANSWER"
              user_query := "q"
              total_chunks := 3
              total_batches := 3
              total_tokens_estimated := 399
              processing_strategy := "multi_batch"
              prioritized := false
              processing_log := [⟨1, 1, "initial_synthesis"⟩, ⟨2, 1, "refine_synthesis"⟩,
                ⟨3, 1, "refine_synthesis"⟩] },
            [create_initial_prompt "q" ["f8"] 3,
             create_refine_prompt "q" "ANSWER" ["f9"] 2 3,
             create_refine_prompt "q" "ANSWER" ["fz"] 3 3]) ∧
    gemini_generate gwConst (create_initial_prompt "q" ["f8"] 3) = "ANSWER" ∧
    gemini_generate gwConst (create_refine_prompt "q" "ANSWER" ["f9"] 2 3) = "ANSWER" ∧
    ("ANSWER" : String).data <:+: (create_refine_prompt "q" "ANSWER" ["f9"] 2 3).data ∧
    ("ANSWER" : String).data <:+: (create_refine_prompt "q" "ANSWER" ["fz"] 3 3).data ∧
    ¬ ("f8" : String).data <:+: (create_refine_prompt "q" "ANSWER" ["f9"] 2 3).data ∧
    ¬ ("f8" : String).data <:+: (create_refine_prompt "q" "ANSWER" ["fz"] 3 3).data ∧
    ¬ ("f9" : String).data <:+: (create_refine_prompt "q" "ANSWER" ["fz"] 3 3).data :=
  ⟨by decide, rfl, rfl, rfl,
    current_response_in_refine_prompt "q" "ANSWER" ["f9"] 2 3,
    current_response_in_refine_prompt "q" "ANSWER" ["fz"] 3 3,
    not_substring_of_missing_char
      (by decide : '8' ∈ ("f8" : String).data)
      (by decide : '8' ∉ (create_refine_prompt "q" "ANSWER" ["f9"] 2 3).data),
    not_substring_of_missing_char
      (by decide : '8' ∈ ("f8" : String).data)
      (by decide : '8' ∉ (create_refine_prompt "q" "ANSWER" ["fz"] 3 3).data),
    not_substring_of_missing_char
      (by decide : '9' ∈ ("f9" : String).data)
      (by decide : '9' ∉ (create_refine_prompt "q" "ANSWER" ["fz"] 3 3).data)⟩

set_option maxRecDepth 1000000 in
/-- Claim C3 counterexample: in the 3-batch scenario where the gateway
fails exactly on batch 2's refine prompt, the processing log is identical,
entry by entry, to the log produced when every call succeeds — batch 2's
entry is the ordinary `⟨2, 1, "refine_synthesis"⟩` record. Log entries
carry no failure mark of any kind, so "batch 2's log entry is marked
failed" is false of the code. -/
theorem c3_failure_mark_counterexample :
    gwScen (create_refine_prompt "q" "OK" ["f9"] 2 3) = .failure "boom" ∧
    (refine_synthesis gwScen cfgScen "q" ["f8", "f9", "fz"] false).map
        SynthesisResult.processing_log =
      (refine_synthesis gwOK cfgScen "q" ["f8", "f9", "fz"] false).map
        SynthesisResult.processing_log ∧
    (refine_synthesis gwScen cfgScen "q" ["f8", "f9", "fz"] false).map
        SynthesisResult.processing_log =
      some [⟨1, 1, "initial_synthesis"⟩, ⟨2, 1, "refine_synthesis"⟩,
        ⟨3, 1, "refine_synthesis"⟩] :=
  ⟨rfl, rfl, rfl⟩

set_option maxRecDepth 1000000 in
/-- Claim C3 (amended): when the gateway fails on batch 2 of 3 and succeeds
on batches 1 and 3, `refine_synthesis` neither raises nor returns an empty
result: the failed step's answer is replaced by the marked error string
`"Error: Gemini API call failed - boom"` (visible as the current-response
of batch 3's refine prompt), execution continues to batch 3, and the final
processing log has exactly 3 entries; however, the log does not mark the
failure — batch 2's entry is an ordinary `"refine_synthesis"` record, and
the failure is visible only through the substituted answer text. -/
theorem c3_failure_isolation_amended :
    refine_synthesis_full gwScen cfgScen "q" ["f8", "f9", "fz"] false =
      some ({ response := "OK"
              user_query := "q"
              total_chunks := 3
              total_batches := 3
              total_tokens_estimated := 399
              processing_strategy := "multi_batch"
              prioritized := false
              processing_log := [⟨1, 1, "initial_synthesis"⟩, ⟨2, 1, "refine_synthesis"⟩,
                ⟨3, 1, "refine_synthesis"⟩] },
            [create_initial_prompt "q" ["f8"] 3,
             create_refine_prompt "q" "OK" ["f9"] 2 3,
             create_refine_prompt "q" "Error: Gemini API call failed - boom" ["fz"] 3 3]) ∧
    gwScen (create_refine_prompt "q" "OK" ["f9"] 2 3) = .failure "boom" ∧
    gemini_generate gwScen (create_refine_prompt "q" "OK" ["f9"] 2 3) =
      "Error: Gemini API call failed - boom" ∧
    ("OK" : String) ≠ "" :=
  ⟨rfl, rfl, rfl, by decide⟩
